import Mathlib

/-!
Verification of the observability pipeline in src/app/app.py.

The Python module is shallowly embedded:

* Python floats and the builtin round(x, 6) are modelled over ℚ with exact
  arithmetic; rounding to six decimal digits becomes an exact operation on
  rationals (round6).  The rounding mode differs from Python only at exact
  half-way ties, which none of the verified statements touch.
* The Flask request/response cycle becomes a pure function ask_question from
  the parsed request data, the collaborator outcome, and the measured latency
  to the HTTP response together with the ordered list of telemetry events the
  handler emits (metric increments, histogram records, log records, span
  starts and attribute writes on both backends).  Emission order follows the
  source line by line, including the Python try/finally semantics: a return
  inside the try block still executes the finally block before the response
  is produced, and an exception unwinds the inner context managers before the
  matching except clause runs, so span-targeting calls in the handlers and in
  the finally block address the root spans.
* uuid generation and the monotonic clock are nondeterministic inputs, passed
  as parameters (request id, session id, latency in ms).
* Keyword arguments that a call site omits (for example a Langfuse span update
  passing only metadata) are modelled as empty association lists.
-/

/-- Telemetry attribute values: strings, naturals (status codes, token counts,
latencies), exact rationals (costs), booleans, JSON null, and nested
string-to-string mappings (the scrubbed header dictionary). -/
inductive Val where
  | str (s : String)
  | num (n : Nat)
  | rat (q : ℚ)
  | bool (b : Bool)
  | null
  | dict (entries : List (String × String))
  deriving DecidableEq, Repr

/-- Attribute bags are ordered association lists, mirroring Python dicts. -/
abbrev Attrs := List (String × Val)

/-- One emitted telemetry record.  otel* constructors model the OpenTelemetry
backend, lf* constructors the Langfuse backend; counters, histograms and logs
are the metrics and log streams.  Span handles are identified by the span name
that is current at the call site. -/
inductive Event where
  | counterAdd (name : String) (value : Nat) (attrs : Attrs)
  | histRecord (name : String) (value : Nat) (attrs : Attrs)
  | log (level : String) (event : String) (attrs : Attrs)
  | otelSpanStart (name : String) (attrs : Attrs)
  | otelSetAttr (span : String) (key : String) (value : Val)
  | lfSpanStart (name : String)
  | lfGenStart (name : String) (model : String) (input : List (String × String))
  | lfUpdateSpan (span : String) (input : Attrs) (output : Attrs) (metadata : Attrs)
  | lfUpdateTrace (userId : Option String) (sessionId : Option String)
      (input : Attrs) (output : Attrs) (metadata : Attrs)
  | lfGenUpdate (output : String) (usageDetails : Attrs) (costDetails : Attrs)
  deriving DecidableEq, Repr

/-- ASCII lower-casing of one character, the model of Python's str.lower() on
the basic-latin range that HTTP header names inhabit. -/
def lowerChar (c : Char) : Char :=
  if 65 ≤ c.toNat ∧ c.toNat ≤ 90 then Char.ofNat (c.toNat + 32) else c

/-- ASCII lower-casing of a string (char-by-char, structurally recursive so
that every statement about it can be evaluated by the kernel). -/
def lowerStr (s : String) : String := String.mk (s.data.map lowerChar)

/-- The fixed redaction set of src/app/app.py line 152. -/
def redactKeys : List String := ["authorization", "cookie", "x-api-key", "proxy-authorization"]

/-- Embedding of _scrub_headers (src/app/app.py lines 149-153).  Headers are an
ordered association list; the dict comprehension keeps every key and replaces
the value by "[REDACTED]" exactly when the lower-cased key is in the redaction
set (lowerStr models k.lower()).  The Python early return for a falsy argument coincides with the
comprehension on the empty dict, and the comprehension builds a fresh dict, so
the embedding is a pure function of the input. -/
def scrub_headers (h : List (String × String)) : List (String × String) :=
  h.map (fun kv => (kv.1, if lowerStr kv.1 ∈ redactKeys then "[REDACTED]" else kv.2))

/-- Rounding to six decimal digits over ℚ, the exact model of round(x, 6):
scale by 10⁶, round to the nearest integer (computed with the executable
Rat.floor so the kernel can evaluate it), scale back. -/
def round6 (x : ℚ) : ℚ := ((x * 1000000 + 1/2).floor : ℚ) / 1000000

/-- Embedding of compute_llm_cost_usd (src/app/app.py lines 170-174).  The
module-level price globals PRICE_IN_PER_KTOK and PRICE_OUT_PER_KTOK are passed
as parameters.  Returns (input_cost, output_cost, total_cost). -/
def compute_llm_cost_usd (priceIn priceOut : ℚ) (prompt_tokens completion_tokens : Nat) :
    ℚ × ℚ × ℚ :=
  let input_cost := round6 ((prompt_tokens : ℚ) / 1000 * priceIn)
  let output_cost := round6 ((completion_tokens : ℚ) / 1000 * priceOut)
  (input_cost, output_cost, round6 (input_cost + output_cost))

/-- Embedding of the Splunk-scaled cost figures (src/app/app.py lines 315-317):
each of the three primary cost terms is multiplied by COST_SPLUNK_SCALE and
rounded again to six decimals. -/
def scaleBreakdown (scale : ℚ) (c : ℚ × ℚ × ℚ) : ℚ × ℚ × ℚ :=
  (round6 (c.1 * scale), round6 (c.2.1 * scale), round6 (c.2.2 * scale))

/-- Module-level configuration read from the environment at process start:
deployment environment tag, service name, model name, the two prices per 1000
tokens, and the Splunk cost scale factor. -/
structure Config where
  env : String
  serviceName : String
  model : String
  priceIn : ℚ
  priceOut : ℚ
  scale : ℚ
  deriving DecidableEq, Repr

/-- The parsed inbound request: headers, the transport-reported peer address,
and the two recognised JSON body fields (absent fields are none). -/
structure Req where
  headers : List (String × String)
  remoteAddr : String
  userType : Option String
  question : Option String
  deriving DecidableEq, Repr

/-- Outcome of the observed OpenAI chat-completions call: either a completion
with answer text and reported usage numbers, or one of the exception classes
the handler distinguishes (RateLimitError, AuthenticationError, APIError, any
other Exception), each carrying its message text. -/
inductive LLMResult where
  | ok (answer : String) (prompt_tokens completion_tokens total_tokens : Nat)
  | rateLimit (msg : String)
  | authFailure (msg : String)
  | apiFailure (msg : String)
  | exn (msg : String)
  deriving DecidableEq, Repr

/-- Python truthiness of data.get("userType") or "anonymous": None and the
empty string both fall back to "anonymous". -/
def effUserType : Option String → String
  | none => "anonymous"
  | some s => if s.isEmpty then "anonymous" else s

/-- Python truthiness of the question field: the line 242 guard (if not
question) fires when the field is absent or the empty string. -/
def questionMissing : Option String → Bool
  | none => true
  | some s => s.isEmpty

/-- JSON encoding of the possibly absent question text. -/
def optVal : Option String → Val
  | none => Val.null
  | some s => Val.str s

/-- Rendering of str(dict) used for the root span's request.headers attribute
(line 237); an abstract but injective-per-entry rendering of the mapping. -/
def headersStr (h : List (String × String)) : String :=
  String.intercalate ", " (h.map (fun kv => kv.1 ++ ": " ++ kv.2))

/-- Python slicing s[:n] by code points, structurally recursive over the
character list so the kernel can evaluate it. -/
def takeChars (n : Nat) (s : String) : String := String.mk (s.data.take n)

/-- Case-insensitive header lookup with default, the model of Flask's
request.headers.get(key, default). -/
def getHeader (h : List (String × String)) (key dflt : String) : String :=
  match h.find? (fun kv => lowerStr kv.1 == lowerStr key) with
  | some kv => kv.2
  | none => dflt

/-- The finally block of ask_question (src/app/app.py lines 413-426): when the
status code is not 200 it records one more latency observation, emits the
structured request_error log, and sets error flags on the current OTel span,
which on every reachable non-200 path is the root span. -/
def finallyBlock (rid : String) (status latency : Nat) : List Event :=
  if status ≠ 200 then
    [ .histRecord "http.server.request.duration" latency
        [("http.route", .str "/askquestion"), ("http.status_code", .num status)],
      .log "error" "request_error"
        [("request.id", .str rid), ("http.status_code", .num status), ("latency_ms", .num latency)],
      .otelSetAttr "ask_question_request" "error" (.bool true),
      .otelSetAttr "ask_question_request" "error.status_code" (.num status) ]
  else []

/-- Token metric increments (src/app/app.py lines 297-300): each counter add is
guarded by truthiness of the respective count. -/
def tokenCounterEvents (model : String) (prompt_tokens completion_tokens : Nat) : List Event :=
  (if prompt_tokens ≠ 0 then
    [Event.counterAdd "llm.tokens" prompt_tokens
      [("llm.token_type", .str "prompt"), ("llm.model", .str model)]] else [])
  ++ (if completion_tokens ≠ 0 then
    [Event.counterAdd "llm.tokens" completion_tokens
      [("llm.token_type", .str "completion"), ("llm.model", .str model)]] else [])

/-- An HTTP response: status code and JSON body as an ordered mapping. -/
structure Response where
  status : Nat
  body : Attrs
  deriving DecidableEq, Repr

/-- Embedding of the route handler ask_question (src/app/app.py lines 177-428).
Inputs: the module configuration, the generated request and session ids, the
parsed request, the collaborator outcome, and the measured latency in ms (the
clock is frozen per request, so every latency computation yields the same
value; no verified statement depends on the latencies differing).  Output: the
HTTP response and the ordered telemetry event list.  Control flow mirrors the
source: the 400 early return still flows through the finally block, and on the
exception arms the inner generation contexts have unwound, so Langfuse span
updates in the except handlers and OTel attribute writes in the finally block
target the root spans. -/
def ask_question (cfg : Config) (rid sid : String) (req : Req) (llm : LLMResult)
    (latency : Nat) : Response × List Event :=
  let user_type := effUserType req.userType
  let q := req.question.getD ""
  let scrubbed := scrub_headers req.headers
  let entryEvents : List Event :=
    [ .counterAdd "http.server.request.count" 1
        [("http.route", .str "/askquestion"), ("deployment.environment", .str cfg.env)],
      .log "info" "request_received" [("request.id", .str rid), ("session.id", .str sid)],
      .lfSpanStart "ask_question_request",
      .otelSpanStart "ask_question_request"
        [("lf.request_id", .str rid), ("lf.session_id", .str sid), ("http.route", .str "/askquestion")],
      .log "info" "request_parsed"
        [("request.id", .str rid), ("user.type", .str user_type),
         ("has.question", .bool (!questionMissing req.question))],
      .lfUpdateSpan "ask_question_request"
        [("request_id", .str rid), ("route", .str "/askquestion"),
         ("client_ip", .str (getHeader req.headers "X-Forwarded-For" req.remoteAddr)),
         ("headers", .dict scrubbed), ("userType", .str user_type),
         ("question", optVal req.question)]
        []
        [("env", .str cfg.env), ("service", .str cfg.serviceName), ("component", .str "ask_question")],
      .lfUpdateTrace (some user_type) (some sid) [("question", optVal req.question)] [] [],
      .otelSetAttr "ask_question_request" "lf.user_id" (.str user_type),
      .otelSetAttr "ask_question_request" "request.headers" (.str (headersStr scrubbed)),
      .otelSetAttr "ask_question_request" "llm.input.userType" (.str user_type) ]
    ++ (if questionMissing req.question then []
        else [.otelSetAttr "ask_question_request" "llm.input.question" (.str q)])
  if questionMissing req.question then
    (⟨400, [("error", .str "Missing 'question' in body"), ("sessionId", .str sid),
            ("userId", .str user_type)]⟩,
     entryEvents
     ++ [ .histRecord "http.server.request.duration" latency
            [("http.route", .str "/askquestion"), ("http.status_code", .num 400)],
          .log "warning" "request_bad_request"
            [("request.id", .str rid), ("http.status_code", .num 400), ("latency_ms", .num latency)],
          .lfUpdateSpan "ask_question_request" [] []
            [("status", .str "bad_request"), ("http_status", .num 400), ("latency_ms", .num latency)],
          .lfUpdateTrace none none [] [("error", .str "missing_question")] [],
          .otelSetAttr "ask_question_request" "http.status_code" (.num 400),
          .otelSetAttr "ask_question_request" "error" (.bool true),
          .otelSetAttr "ask_question_request" "error.type" (.str "bad_request"),
          .otelSetAttr "ask_question_request" "latency_ms" (.num latency) ]
     ++ finallyBlock rid 400 latency)
  else
    let sysMsg := "You are answering as user type: " ++ user_type ++ "."
    let genStart : List Event :=
      [ .otelSpanStart "openai.chat.completions.create"
          [("llm.vendor", .str "openai"), ("llm.model", .str cfg.model),
           ("llm.input.role.system", .str sysMsg),
           ("lf.user_id", .str user_type), ("lf.session_id", .str sid)],
        .lfGenStart "openai-style-generation" cfg.model [("system", sysMsg), ("user", q)] ]
    match llm with
    | .ok answer pt ct ttRaw =>
      let tt := if ttRaw = 0 then pt + ct else ttRaw
      let c := compute_llm_cost_usd cfg.priceIn cfg.priceOut pt ct
      let s := scaleBreakdown cfg.scale c
      (⟨200, [("answer", .str answer), ("sessionId", .str sid), ("userId", .str user_type)]⟩,
       entryEvents ++ genStart
       ++ tokenCounterEvents cfg.model pt ct
       ++ [ .log "info" "llm_usage"
              [("request.id", .str rid), ("llm.model", .str cfg.model),
               ("usage.prompt_tokens", .num pt), ("usage.completion_tokens", .num ct),
               ("usage.total_tokens", .num tt)],
            .otelSetAttr "openai.chat.completions.create" "llm.usage.prompt_tokens" (.num pt),
            .otelSetAttr "openai.chat.completions.create" "llm.usage.completion_tokens" (.num ct),
            .otelSetAttr "openai.chat.completions.create" "llm.usage.total_tokens" (.num tt),
            .otelSetAttr "openai.chat.completions.create" "llm.cost.input_usd" (.rat s.1),
            .otelSetAttr "openai.chat.completions.create" "llm.cost.output_usd" (.rat s.2.1),
            .otelSetAttr "openai.chat.completions.create" "llm.cost.usd" (.rat s.2.2) ]
       ++ (if answer.isEmpty then []
           else [ .otelSetAttr "openai.chat.completions.create" "llm.output.length" (.num answer.length),
                  .otelSetAttr "openai.chat.completions.create" "llm.output.excerpt"
                    (.str (takeChars 500 answer)) ])
       ++ [ .lfGenUpdate answer
              [("prompt_tokens", .num pt), ("completion_tokens", .num ct), ("total_tokens", .num tt)]
              [("input", .rat c.1), ("output", .rat c.2.1), ("total", .rat c.2.2)],
            .lfUpdateSpan "openai-style-generation" [] [] [("llm.cost.source", .str "app_env_prices")],
            .lfUpdateTrace none none [] [] [("llm.cost.source", .str "app_env_prices")],
            .lfUpdateSpan "openai-style-generation" [] []
              [("llm.model", .str cfg.model), ("llm.usage.prompt_tokens", .num pt),
               ("llm.usage.completion_tokens", .num ct), ("llm.usage.total_tokens", .num tt),
               ("llm.cost.input_usd", .rat c.1), ("llm.cost.output_usd", .rat c.2.1),
               ("llm.cost.usd", .rat c.2.2)],
            .lfUpdateTrace none none [] []
              [("llm.model", .str cfg.model), ("llm.cost.usd", .rat c.2.2)],
            .otelSetAttr "ask_question_request" "llm.usage.prompt_tokens" (.num pt),
            .otelSetAttr "ask_question_request" "llm.usage.completion_tokens" (.num ct),
            .otelSetAttr "ask_question_request" "llm.usage.total_tokens" (.num tt),
            .otelSetAttr "ask_question_request" "llm.cost.input_usd" (.rat s.1),
            .otelSetAttr "ask_question_request" "llm.cost.output_usd" (.rat s.2.1),
            .otelSetAttr "ask_question_request" "llm.cost.usd" (.rat s.2.2),
            .lfUpdateSpan "ask_question_request" [] [("answer", .str answer)]
              [("status", .str "ok"), ("http_status", .num 200), ("latency_ms", .num latency)],
            .lfUpdateTrace none none [] [("answer", .str answer)] [],
            .otelSetAttr "ask_question_request" "http.status_code" (.num 200),
            .otelSetAttr "ask_question_request" "latency_ms" (.num latency) ]
       ++ (if answer.isEmpty then []
           else [.otelSetAttr "ask_question_request" "llm.output.excerpt" (.str (takeChars 500 answer))])
       ++ [ .histRecord "http.server.request.duration" latency
              [("http.route", .str "/askquestion"), ("http.status_code", .num 200)],
            .log "info" "request_success"
              [("request.id", .str rid), ("http.status_code", .num 200), ("latency_ms", .num latency)] ]
       ++ finallyBlock rid 200 latency)
    | .rateLimit msg =>
      (⟨429, [("error", .str "request_failed")]⟩,
       entryEvents ++ genStart
       ++ [ .log "exception" "openai_rate_limited" [("request.id", .str rid)],
            .lfUpdateSpan "ask_question_request" []
              [("error", .str "rate_limit"), ("detail", .str msg)]
              [("status", .str "rate_limited"), ("http_status", .num 429)],
            .lfUpdateTrace none none [] []
              [("error", .bool true), ("error.type", .str "RateLimitError")] ]
       ++ finallyBlock rid 429 latency)
    | .authFailure _msg =>
      (⟨401, [("error", .str "request_failed")]⟩,
       entryEvents ++ genStart
       ++ [ .log "exception" "openai_auth_error" [("request.id", .str rid)],
            .lfUpdateSpan "ask_question_request" []
              [("error", .str "auth_error"), ("detail", .str "Invalid or missing API key.")]
              [("status", .str "auth_error"), ("http_status", .num 401)],
            .lfUpdateTrace none none [] []
              [("error", .bool true), ("error.type", .str "AuthenticationError")] ]
       ++ finallyBlock rid 401 latency)
    | .apiFailure msg =>
      (⟨502, [("error", .str "request_failed")]⟩,
       entryEvents ++ genStart
       ++ [ .log "exception" "openai_api_error" [("request.id", .str rid)],
            .lfUpdateSpan "ask_question_request" []
              [("error", .str "openai_api_error"), ("detail", .str msg)]
              [("status", .str "openai_api_error"), ("http_status", .num 502)],
            .lfUpdateTrace none none [] []
              [("error", .bool true), ("error.type", .str "APIError")] ]
       ++ finallyBlock rid 502 latency)
    | .exn msg =>
      (⟨500, [("error", .str "request_failed")]⟩,
       entryEvents ++ genStart
       ++ [ .log "exception" "unhandled_exception" [("request.id", .str rid)],
            .lfUpdateSpan "ask_question_request" []
              [("error", .str "server_error"), ("detail", .str msg)]
              [("status", .str "server_error"), ("http_status", .num 500)],
            .lfUpdateTrace none none [] []
              [("error", .bool true), ("error.type", .str "Exception")] ]
       ++ finallyBlock rid 500 latency)

/-- Observations recorded on the latency histogram. -/
def isLatencyObs : Event → Bool
  | .histRecord n _ _ => n == "http.server.request.duration"
  | _ => false

/-- Terminal status-bearing log events (request_success or request_error). -/
def isTerminalLog : Event → Bool
  | .log _ ev _ => ev == "request_success" || ev == "request_error"
  | _ => false

/-- Number of latency histogram observations in an event list. -/
def latencyObsCount (es : List Event) : Nat := (es.filter isLatencyObs).length

/-- Number of terminal status-bearing log events in an event list. -/
def terminalLogCount (es : List Event) : Nat := (es.filter isTerminalLog).length

/-- Events that open the generation span pair (the OTel LLM span or the
Langfuse generation observation). -/
def isGenerationStart : Event → Bool
  | .otelSpanStart n _ => n == "openai.chat.completions.create"
  | .lfGenStart _ _ _ => true
  | _ => false

/-- Token metric increments on the llm.tokens counter. -/
def isTokenCounterAdd : Event → Bool
  | .counterAdd n _ _ => n == "llm.tokens"
  | _ => false

/-- A concrete configuration for witness runs (prices 0, scale 1). -/
def cfgEx : Config := ⟨"dev", "flask-api", "gpt-4o-mini", 0, 0, 1⟩

/-- A concrete request with no question field. -/
def reqNoQuestion : Req := ⟨[("Authorization", "Bearer x")], "10.0.0.1", none, none⟩

/-- A concrete request with a present, non-empty question. -/
def reqWithQuestion : Req :=
  ⟨[("Authorization", "Bearer x")], "10.0.0.1", some "pro", some "why is the sky blue"⟩

/-- A 501-character answer used to separate the full answer from its
500-character excerpt. -/
def ansLong : String := String.mk (List.replicate 501 'a')

/-- Two header lists that agree on the key sequence (with casing) and on the
values of every key outside the redaction set; values of redacted keys may
differ arbitrarily. -/
def AgreeOffRedacted (h1 h2 : List (String × String)) : Prop :=
  List.Forall₂
    (fun a b => a.1 = b.1 ∧ (lowerStr a.1 ∉ redactKeys → a.2 = b.2)) h1 h2

/-- C1: the claim that every request records exactly one latency histogram
observation and one terminal log event fails on the missing-question path: the
400 branch records the latency histogram at line 245 and then, because the
early return still executes the finally block with status 400 ≠ 200, records
it again at line 416 — two observations for one request (the terminal log is
emitted exactly once, only by the finally block).  The success and rate-limit
paths do satisfy the claim, isolating the defect to the 400 branch. -/
theorem c1_duplicate_latency_on_bad_request :
    latencyObsCount (ask_question cfgEx "r1" "s1" reqNoQuestion (.exn "unused") 5).2 = 2 ∧
    terminalLogCount (ask_question cfgEx "r1" "s1" reqNoQuestion (.exn "unused") 5).2 = 1 ∧
    latencyObsCount (ask_question cfgEx "r1" "s1" reqWithQuestion (.ok "hi" 10 5 0) 5).2 = 1 ∧
    terminalLogCount (ask_question cfgEx "r1" "s1" reqWithQuestion (.ok "hi" 10 5 0) 5).2 = 1 ∧
    latencyObsCount (ask_question cfgEx "r1" "s1" reqWithQuestion (.rateLimit "slow") 5).2 = 1 ∧
    terminalLogCount (ask_question cfgEx "r1" "s1" reqWithQuestion (.rateLimit "slow") 5).2 = 1 := by
  decide

/-- C3: pointwise characterisation of the scrubber: the result pairs up with
the input, every key is kept with its original casing, a key whose lower-cased
form is in the fixed redaction set maps to the literal "[REDACTED]", every
other key keeps its original value; an empty input yields an empty mapping;
and the spec's concrete example holds (redaction is case-insensitive on keys).
Non-mutation of the input is immediate from the embedding being a pure
function that rebuilds the mapping. -/
theorem c3_scrub_headers_spec (h : List (String × String)) :
    List.Forall₂
      (fun kv kv' => kv'.1 = kv.1 ∧
        kv'.2 = (if lowerStr kv.1 ∈ redactKeys then "[REDACTED]" else kv.2))
      h (scrub_headers h)
    ∧ scrub_headers [] = []
    ∧ scrub_headers [("Authorization", "Bearer x"), ("X-Custom", "y")] =
        [("Authorization", "[REDACTED]"), ("X-Custom", "y")] := by
  refine ⟨?_, rfl, by decide⟩
  induction h with
  | nil => exact List.Forall₂.nil
  | cons a t ih => exact List.Forall₂.cons ⟨rfl, rfl⟩ ih

/-- C10: the scrubber preserves the exact key sequence (original casing
included) and is idempotent. -/
theorem c10_scrub_headers_keys_idempotent (h : List (String × String)) :
    (scrub_headers h).map Prod.fst = h.map Prod.fst ∧
    scrub_headers (scrub_headers h) = scrub_headers h := by
  constructor
  · simp [scrub_headers]
  · induction h with
    | nil => rfl
    | cons a t ih =>
      by_cases hk : lowerStr a.1 ∈ redactKeys <;>
        simp [scrub_headers, hk] at ih ⊢ <;> simpa [scrub_headers] using ih

/-- The executable rational floor agrees with the order-theoretic one. -/
theorem rat_floor_eq_intFloor (q : ℚ) : q.floor = ⌊q⌋ := rfl

/-- round6 is the identity on integer multiples of one millionth. -/
theorem round6_intCast_div (m : ℤ) : round6 ((m : ℚ) / 1000000) = (m : ℚ) / 1000000 := by
  unfold round6
  rw [rat_floor_eq_intFloor, div_mul_cancel₀ _ (by norm_num : (1000000 : ℚ) ≠ 0)]
  norm_num

/-- The sum of two already-rounded terms is a fixed point of round6, so
rounding the sum again changes nothing. -/
theorem round6_add_fixed (x y : ℚ) : round6 (round6 x + round6 y) = round6 x + round6 y := by
  have h : round6 x + round6 y =
      (((x * 1000000 + 1/2).floor + (y * 1000000 + 1/2).floor : ℤ) : ℚ) / 1000000 := by
    unfold round6; push_cast; ring
  rw [h, round6_intCast_div]

/-- C4: the cost computation follows the claimed formulas term by term, zero
tokens give the zero breakdown for any pricing, and the spec's concrete
example (rates 1 and 2 dollars per 1000 tokens, 100 prompt and 50 completion
tokens) yields (0.1, 0.1, 0.2). -/
theorem c4_cost_formulas (priceIn priceOut : ℚ) (pt ct : Nat) :
    compute_llm_cost_usd priceIn priceOut pt ct =
      (round6 ((pt : ℚ) / 1000 * priceIn),
       round6 ((ct : ℚ) / 1000 * priceOut),
       round6 (round6 ((pt : ℚ) / 1000 * priceIn) + round6 ((ct : ℚ) / 1000 * priceOut))) ∧
    compute_llm_cost_usd priceIn priceOut 0 0 = (0, 0, 0) ∧
    compute_llm_cost_usd 1 2 100 50 = (1/10, 1/10, 1/5) := by
  refine ⟨rfl, ?_, ?_⟩ <;>
    · simp only [compute_llm_cost_usd, round6, rat_floor_eq_intFloor, Prod.mk.injEq]
      norm_num

/-- C5 counterexample: the scaled breakdown does not in general satisfy
total = input + output.  With both prices one tenth of a cent per 1000 tokens,
one token each way, and scale factor 0.55, the primary breakdown is
(0.000001, 0.000001, 0.000002); scaling rounds each term separately and the
scaled total 0.000001 differs from the sum 0.000002 of the scaled input and
output terms. -/
theorem c5_counterexample_scaled_total :
    (scaleBreakdown (11/20) (compute_llm_cost_usd (1/1000) (1/1000) 1 1)).2.2 ≠
      (scaleBreakdown (11/20) (compute_llm_cost_usd (1/1000) (1/1000) 1 1)).1 +
      (scaleBreakdown (11/20) (compute_llm_cost_usd (1/1000) (1/1000) 1 1)).2.1 := by
  simp only [scaleBreakdown, compute_llm_cost_usd, round6, rat_floor_eq_intFloor]
  norm_num

/-- C5 amended: the scaled breakdown is the primary breakdown with each of its
three terms multiplied by the scale factor and rounded again to six decimals;
for the primary breakdown the total does equal the sum of the independently
rounded input and output terms; and with scale factor 2 applied to the
breakdown (0.1, 0.1, 0.2) the scaled total is 0.4.  (The scaled total is the
rounded scaled primary total, which need not equal the sum of the scaled input
and output terms — see the counterexample.) -/
theorem c5_scaled_breakdown (scale : ℚ) (c : ℚ × ℚ × ℚ) (priceIn priceOut : ℚ)
    (pt ct : Nat) :
    scaleBreakdown scale c =
      (round6 (c.1 * scale), round6 (c.2.1 * scale), round6 (c.2.2 * scale)) ∧
    (compute_llm_cost_usd priceIn priceOut pt ct).2.2 =
      (compute_llm_cost_usd priceIn priceOut pt ct).1 +
      (compute_llm_cost_usd priceIn priceOut pt ct).2.1 ∧
    scaleBreakdown 2 (compute_llm_cost_usd 1 2 100 50) = (1/5, 1/5, 2/5) := by
  refine ⟨rfl, round6_add_fixed _ _, ?_⟩
  simp only [scaleBreakdown, compute_llm_cost_usd, round6, rat_floor_eq_intFloor, Prod.mk.injEq]
  norm_num

/-- C2: for every collaborator failure the pipeline returns a response (the
embedding is a total function, so nothing re-raises past the boundary): a
rate-limit failure yields 429, an authentication failure 401, a generic
upstream API failure 502, and any other unhandled failure 500, each with the
generic body containing only error = "request_failed". -/
theorem c2_failure_status_codes (cfg : Config) (rid sid : String) (req : Req)
    (m : String) (lat : Nat) (hq : questionMissing req.question = false) :
    (ask_question cfg rid sid req (.rateLimit m) lat).1 =
      ⟨429, [("error", .str "request_failed")]⟩ ∧
    (ask_question cfg rid sid req (.authFailure m) lat).1 =
      ⟨401, [("error", .str "request_failed")]⟩ ∧
    (ask_question cfg rid sid req (.apiFailure m) lat).1 =
      ⟨502, [("error", .str "request_failed")]⟩ ∧
    (ask_question cfg rid sid req (.exn m) lat).1 =
      ⟨500, [("error", .str "request_failed")]⟩ := by
  simp [ask_question, hq]

/-- C2 witness at a concrete run. -/
theorem c2_failure_status_codes_witness :
    (ask_question cfgEx "r2" "s2" reqWithQuestion (.rateLimit "m") 3).1 =
      ⟨429, [("error", .str "request_failed")]⟩ ∧
    (ask_question cfgEx "r2" "s2" reqWithQuestion (.authFailure "m") 3).1 =
      ⟨401, [("error", .str "request_failed")]⟩ ∧
    (ask_question cfgEx "r2" "s2" reqWithQuestion (.apiFailure "m") 3).1 =
      ⟨502, [("error", .str "request_failed")]⟩ ∧
    (ask_question cfgEx "r2" "s2" reqWithQuestion (.exn "m") 3).1 =
      ⟨500, [("error", .str "request_failed")]⟩ :=
  c2_failure_status_codes cfgEx "r2" "s2" reqWithQuestion "m" 3 (by decide)

/-- C7: a request whose question is absent or empty gets status 400 with the
descriptive body (error message, session id, user id), no generation span pair
is opened on either backend, and no token metric increment is emitted. -/
theorem c7_missing_question (cfg : Config) (rid sid : String) (req : Req)
    (llm : LLMResult) (lat : Nat) (hq : questionMissing req.question = true) :
    (ask_question cfg rid sid req llm lat).1 =
      ⟨400, [("error", .str "Missing 'question' in body"), ("sessionId", .str sid),
             ("userId", .str (effUserType req.userType))]⟩ ∧
    (ask_question cfg rid sid req llm lat).2.filter isGenerationStart = [] ∧
    (ask_question cfg rid sid req llm lat).2.filter isTokenCounterAdd = [] := by
  refine ⟨?_, ?_, ?_⟩ <;>
    simp [ask_question, hq, finallyBlock, isGenerationStart, isTokenCounterAdd,
      List.filter]

/-- C7 witness at a concrete run. -/
theorem c7_missing_question_witness :
    (ask_question cfgEx "r3" "s3" reqNoQuestion (.exn "unused") 5).1 =
      ⟨400, [("error", .str "Missing 'question' in body"), ("sessionId", .str "s3"),
             ("userId", .str "anonymous")]⟩ ∧
    (ask_question cfgEx "r3" "s3" reqNoQuestion (.exn "unused") 5).2.filter
      isGenerationStart = [] ∧
    (ask_question cfgEx "r3" "s3" reqNoQuestion (.exn "unused") 5).2.filter
      isTokenCounterAdd = [] :=
  c7_missing_question cfgEx "r3" "s3" reqNoQuestion (.exn "unused") 5 (by decide)

/-- C6 counterexample: on the rate-limit branch no OTel span attribute at all
carries the chosen error tag "rate_limit" — the tag reaches only the Langfuse
span (the finally block gives the OTel root span error=true and the numeric
error.status_code instead), so the tag is not set on both backends' spans as
the claim states. -/
theorem c6_counterexample_tag_missing_on_otel :
    ((ask_question cfgEx "r4" "s4" reqWithQuestion (.rateLimit "slow down") 7).2.filter
      fun e => match e with
        | .otelSetAttr _ _ v => v == Val.str "rate_limit"
        | _ => false) = [] := by
  decide

/-- C6 amended: every failure branch sets error=true on the active OTel root
span and records the branch's error tag on the Langfuse span (output error
and/or metadata status); the OTel span carries the tag (error.type) only on
the bad-request branch, the exception branches giving it the numeric
error.status_code instead, with the exception class name going to the
Langfuse trace metadata. -/
theorem c6_amended_error_flags (cfg : Config) (rid sid : String) (req reqM : Req)
    (m : String) (lat : Nat) (hq : questionMissing req.question = false)
    (hm : questionMissing reqM.question = true) :
    (Event.otelSetAttr "ask_question_request" "error" (.bool true)
       ∈ (ask_question cfg rid sid req (.rateLimit m) lat).2 ∧
     Event.otelSetAttr "ask_question_request" "error.status_code" (.num 429)
       ∈ (ask_question cfg rid sid req (.rateLimit m) lat).2 ∧
     Event.lfUpdateSpan "ask_question_request" []
       [("error", .str "rate_limit"), ("detail", .str m)]
       [("status", .str "rate_limited"), ("http_status", .num 429)]
       ∈ (ask_question cfg rid sid req (.rateLimit m) lat).2) ∧
    (Event.otelSetAttr "ask_question_request" "error" (.bool true)
       ∈ (ask_question cfg rid sid req (.authFailure m) lat).2 ∧
     Event.otelSetAttr "ask_question_request" "error.status_code" (.num 401)
       ∈ (ask_question cfg rid sid req (.authFailure m) lat).2 ∧
     Event.lfUpdateSpan "ask_question_request" []
       [("error", .str "auth_error"), ("detail", .str "Invalid or missing API key.")]
       [("status", .str "auth_error"), ("http_status", .num 401)]
       ∈ (ask_question cfg rid sid req (.authFailure m) lat).2) ∧
    (Event.otelSetAttr "ask_question_request" "error" (.bool true)
       ∈ (ask_question cfg rid sid req (.apiFailure m) lat).2 ∧
     Event.otelSetAttr "ask_question_request" "error.status_code" (.num 502)
       ∈ (ask_question cfg rid sid req (.apiFailure m) lat).2 ∧
     Event.lfUpdateSpan "ask_question_request" []
       [("error", .str "openai_api_error"), ("detail", .str m)]
       [("status", .str "openai_api_error"), ("http_status", .num 502)]
       ∈ (ask_question cfg rid sid req (.apiFailure m) lat).2) ∧
    (Event.otelSetAttr "ask_question_request" "error" (.bool true)
       ∈ (ask_question cfg rid sid req (.exn m) lat).2 ∧
     Event.otelSetAttr "ask_question_request" "error.status_code" (.num 500)
       ∈ (ask_question cfg rid sid req (.exn m) lat).2 ∧
     Event.lfUpdateSpan "ask_question_request" []
       [("error", .str "server_error"), ("detail", .str m)]
       [("status", .str "server_error"), ("http_status", .num 500)]
       ∈ (ask_question cfg rid sid req (.exn m) lat).2) ∧
    (Event.otelSetAttr "ask_question_request" "error" (.bool true)
       ∈ (ask_question cfg rid sid reqM (.exn m) lat).2 ∧
     Event.otelSetAttr "ask_question_request" "error.type" (.str "bad_request")
       ∈ (ask_question cfg rid sid reqM (.exn m) lat).2 ∧
     Event.lfUpdateSpan "ask_question_request" [] []
       [("status", .str "bad_request"), ("http_status", .num 400), ("latency_ms", .num lat)]
       ∈ (ask_question cfg rid sid reqM (.exn m) lat).2) := by
  refine ⟨⟨?_, ?_, ?_⟩, ⟨?_, ?_, ?_⟩, ⟨?_, ?_, ?_⟩, ⟨?_, ?_, ?_⟩, ⟨?_, ?_, ?_⟩⟩ <;>
    simp [ask_question, hq, hm, finallyBlock]

/-- C6 amended witness at a concrete run, discharging both hypotheses. -/
theorem c6_amended_error_flags_witness :
    questionMissing reqWithQuestion.question = false ∧
    questionMissing reqNoQuestion.question = true ∧
    Event.otelSetAttr "ask_question_request" "error" (.bool true)
      ∈ (ask_question cfgEx "r5" "s5" reqWithQuestion (.rateLimit "m") 3).2 :=
  ⟨by decide, by decide,
    (c6_amended_error_flags cfgEx "r5" "s5" reqWithQuestion reqNoQuestion "m" 3
      (by decide) (by decide)).1.1⟩

/-- On a successful run the Langfuse trace output carries the full answer
text (src/app/app.py line 364). -/
theorem success_lfTrace_output_mem (cfg : Config) (rid sid : String) (req : Req)
    (ans : String) (pt ct tt lat : Nat) (hq : questionMissing req.question = false) :
    Event.lfUpdateTrace none none [] [("answer", .str ans)] []
      ∈ (ask_question cfg rid sid req (.ok ans pt ct tt) lat).2 := by
  simp [ask_question, hq, finallyBlock]

/-- On a successful run, a string value distinct from the answer never occurs
as a Langfuse span or trace output value: the only output payloads on that
path are the answer itself. -/
theorem success_no_other_lf_output (cfg : Config) (rid sid : String) (req : Req)
    (ans t : String) (pt ct tt lat : Nat) (hq : questionMissing req.question = false)
    (hne : (Val.str ans == Val.str t) = false) :
    ((ask_question cfg rid sid req (.ok ans pt ct tt) lat).2.filter
       fun e => match e with
         | .lfUpdateTrace _ _ _ out _ => out.any fun kv => kv.2 == Val.str t
         | .lfUpdateSpan _ _ out _ => out.any fun kv => kv.2 == Val.str t
         | _ => false) = [] := by
  by_cases h1 : ans.isEmpty <;> by_cases h2 : pt = 0 <;> by_cases h3 : ct = 0 <;>
    by_cases h4 : tt = 0 <;>
    simp [ask_question, hq, finallyBlock, tokenCounterEvents, hne, h1, h2, h3, h4]

/-- The 500-character excerpt of the long answer is a strictly shorter string. -/
theorem takeChars_ansLong_ne : takeChars 500 ansLong ≠ ansLong := by
  intro h
  have hd : ((List.replicate 501 'a').take 500).length = (List.replicate 501 'a').length :=
    congrArg (fun s => s.data.length) h
  rw [List.take_replicate, List.length_replicate, List.length_replicate] at hd
  omega

/-- Boolean form of the previous inequality, oriented for rewriting. -/
theorem beq_ansLong_excerpt_false :
    (Val.str ansLong == Val.str (takeChars 500 ansLong)) = false := by
  rw [beq_eq_false_iff_ne, ne_eq, Val.str.injEq]
  exact fun h => takeChars_ansLong_ne h.symm

/-- C8 counterexample: on a successful run whose answer is 501 characters
long, the Langfuse trace output carries the full answer (which differs from
its first-500-character excerpt), and no Langfuse span or trace output
anywhere carries the excerpt — so the bounded excerpt is not attached to the
root span pair and backend trace output as the claim states; only the OTel
root span receives it. -/
theorem c8_counterexample_full_answer_on_langfuse :
    (Event.lfUpdateTrace none none [] [("answer", Val.str ansLong)] []
       ∈ (ask_question cfgEx "r6" "s6" reqWithQuestion (.ok ansLong 1 1 0) 2).2) ∧
    takeChars 500 ansLong ≠ ansLong ∧
    ((ask_question cfgEx "r6" "s6" reqWithQuestion (.ok ansLong 1 1 0) 2).2.filter
       fun e => match e with
         | .lfUpdateTrace _ _ _ out _ => out.any fun kv => kv.2 == Val.str (takeChars 500 ansLong)
         | .lfUpdateSpan _ _ out _ => out.any fun kv => kv.2 == Val.str (takeChars 500 ansLong)
         | _ => false) = [] :=
  ⟨success_lfTrace_output_mem cfgEx "r6" "s6" reqWithQuestion ansLong 1 1 0 2 (by decide),
   takeChars_ansLong_ne,
   success_no_other_lf_output cfgEx "r6" "s6" reqWithQuestion ansLong (takeChars 500 ansLong)
     1 1 0 2 (by decide) beq_ansLong_excerpt_false⟩

/-- C8 amended: on the success path, finalization attaches status 200 and the
latency to the OTel root span and (as http_status/latency_ms metadata) to the
Langfuse root span; the bounded first-500-character excerpt is attached to the
OTel root span (when the answer is non-empty), while the Langfuse span and
trace outputs carry the full answer; exactly one latency observation is
recorded, together with the request_success log. -/
theorem c8_amended_success_finalization (cfg : Config) (rid sid : String) (req : Req)
    (ans : String) (pt ct tt lat : Nat)
    (hq : questionMissing req.question = false) (ha : ans.isEmpty = false) :
    Event.otelSetAttr "ask_question_request" "http.status_code" (.num 200)
      ∈ (ask_question cfg rid sid req (.ok ans pt ct tt) lat).2 ∧
    Event.otelSetAttr "ask_question_request" "latency_ms" (.num lat)
      ∈ (ask_question cfg rid sid req (.ok ans pt ct tt) lat).2 ∧
    Event.otelSetAttr "ask_question_request" "llm.output.excerpt" (.str (takeChars 500 ans))
      ∈ (ask_question cfg rid sid req (.ok ans pt ct tt) lat).2 ∧
    Event.lfUpdateSpan "ask_question_request" [] [("answer", .str ans)]
      [("status", .str "ok"), ("http_status", .num 200), ("latency_ms", .num lat)]
      ∈ (ask_question cfg rid sid req (.ok ans pt ct tt) lat).2 ∧
    Event.lfUpdateTrace none none [] [("answer", .str ans)] []
      ∈ (ask_question cfg rid sid req (.ok ans pt ct tt) lat).2 ∧
    latencyObsCount (ask_question cfg rid sid req (.ok ans pt ct tt) lat).2 = 1 ∧
    Event.log "info" "request_success"
      [("request.id", .str rid), ("http.status_code", .num 200), ("latency_ms", .num lat)]
      ∈ (ask_question cfg rid sid req (.ok ans pt ct tt) lat).2 := by
  refine ⟨?_, ?_, ?_, ?_, ?_, ?_, ?_⟩ <;>
    · by_cases h2 : pt = 0 <;> by_cases h3 : ct = 0 <;> by_cases h4 : tt = 0 <;>
        simp [ask_question, hq, ha, latencyObsCount, isLatencyObs, finallyBlock,
          tokenCounterEvents, h2, h3, h4]

/-- C8 amended witness at a concrete run, discharging both hypotheses. -/
theorem c8_amended_success_finalization_witness :
    questionMissing reqWithQuestion.question = false ∧
    "hello".isEmpty = false ∧
    latencyObsCount (ask_question cfgEx "r7" "s7" reqWithQuestion (.ok "hello" 1 1 0) 4).2 = 1 :=
  ⟨by decide, by decide,
   (c8_amended_success_finalization cfgEx "r7" "s7" reqWithQuestion "hello" 1 1 0 4
      (by decide) (by decide)).2.2.2.2.2.1⟩

/-- The scrubber erases exactly the differences AgreeOffRedacted allows. -/
theorem scrub_headers_eq_of_agree {h1 h2 : List (String × String)}
    (h : AgreeOffRedacted h1 h2) : scrub_headers h1 = scrub_headers h2 := by
  induction h with
  | nil => rfl
  | cons hab htl ih =>
    rename_i a b l1 l2
    obtain ⟨hk, hv⟩ := hab
    show scrub_headers (a :: l1) = scrub_headers (b :: l2)
    have htail : scrub_headers l1 = scrub_headers l2 := ih
    simp only [scrub_headers, List.map_cons] at htail ⊢
    rw [htail, hk]
    by_cases hc : lowerStr b.1 ∈ redactKeys
    · simp [hc]
    · simp [hc, hv (by rw [hk]; exact hc)]

/-- The X-Forwarded-For lookup (an unredacted key) agrees on header lists that
differ only in redacted values. -/
theorem getHeader_xff_eq_of_agree {h1 h2 : List (String × String)} (d : String)
    (h : AgreeOffRedacted h1 h2) :
    getHeader h1 "X-Forwarded-For" d = getHeader h2 "X-Forwarded-For" d := by
  induction h with
  | nil => rfl
  | cons hab htl ih =>
    rename_i a b l1 l2
    obtain ⟨hk, hv⟩ := hab
    by_cases hc : (lowerStr a.1 == lowerStr "X-Forwarded-For") = true
    · have hcb : (lowerStr b.1 == lowerStr "X-Forwarded-For") = true := by
        rw [← hk]; exact hc
      have hval : a.2 = b.2 := by
        apply hv
        have heq : lowerStr a.1 = lowerStr "X-Forwarded-For" := eq_of_beq hc
        rw [heq]
        decide
      show getHeader (a :: l1) _ _ = getHeader (b :: l2) _ _
      unfold getHeader
      rw [List.find?_cons, List.find?_cons]
      simp only [hc, hcb]
      exact hval
    · have hcb : ¬((lowerStr b.1 == lowerStr "X-Forwarded-For") = true) := by
        rw [← hk]; exact hc
      have hcf : (lowerStr a.1 == lowerStr "X-Forwarded-For") = false := by
        simpa using hc
      have hcbf : (lowerStr b.1 == lowerStr "X-Forwarded-For") = false := by
        simpa using hcb
      show getHeader (a :: l1) _ _ = getHeader (b :: l2) _ _
      unfold getHeader
      rw [List.find?_cons, List.find?_cons]
      simp only [hcf, hcbf]
      exact ih

/-- C9: noninterference of redacted header values.  Two runs of the pipeline
that are identical except for the values of headers whose keys fall
(case-insensitively) in the redaction set produce identical responses and
identical telemetry event lists — sensitive header values can never reach any
emitted record, on any path, because every attached header value for those
keys is the literal "[REDACTED]". -/
theorem c9_redacted_header_noninterference (cfg : Config) (rid sid : String)
    (h1 h2 : List (String × String)) (ra : String) (ut q : Option String)
    (llm : LLMResult) (lat : Nat) (hh : AgreeOffRedacted h1 h2) :
    ask_question cfg rid sid ⟨h1, ra, ut, q⟩ llm lat =
      ask_question cfg rid sid ⟨h2, ra, ut, q⟩ llm lat := by
  have hs := scrub_headers_eq_of_agree hh
  have hg := getHeader_xff_eq_of_agree ra hh
  simp only [ask_question, hs, hg]

/-- C9 witness: concrete runs differing only in the Authorization value. -/
theorem c9_redacted_header_noninterference_witness :
    ask_question cfgEx "r8" "s8"
      ⟨[("Authorization", "Bearer x"), ("X-Custom", "y")], "ip", some "pro", some "hi"⟩
      (.ok "fine" 1 1 0) 2 =
    ask_question cfgEx "r8" "s8"
      ⟨[("Authorization", "Bearer z"), ("X-Custom", "y")], "ip", some "pro", some "hi"⟩
      (.ok "fine" 1 1 0) 2 :=
  c9_redacted_header_noninterference cfgEx "r8" "s8"
    [("Authorization", "Bearer x"), ("X-Custom", "y")]
    [("Authorization", "Bearer z"), ("X-Custom", "y")] "ip" (some "pro") (some "hi")
    (.ok "fine" 1 1 0) 2
    (List.Forall₂.cons ⟨rfl, fun hn => absurd (by decide) hn⟩
      (List.Forall₂.cons ⟨rfl, fun _ => rfl⟩ List.Forall₂.nil))
